import Mathlib

/-!
Verification development for the selector-free Playwright dynamic explorer
(tools/playwright_dynamic_explorer.py).  The definitions below are a shallow
embedding of the data model and the pure / sequential logic of the class
PlaywrightDynamicExplorer: the Gherkin synthesizer, the discovery aggregator,
the popup detector, the grid-size computation of the exploration driver, the
page-instrumentation state, the click verifier and the resource handling of
the run entry point.  Browser-side queries (DOM scans, navigations) are
modelled as oracle functions supplied as parameters, so every definition is
executable on concrete inputs.
-/

set_option maxRecDepth 10000

namespace DynamicExplorer

/-- Bounding box of a DOM element in viewport coordinates.  The in-page
fingerprint script rounds every component with Math.round, hence integers. -/
structure BBox where
  x : Int
  y : Int
  w : Int
  h : Int
deriving DecidableEq, Repr

/-- Element fingerprint computed by the injected script (function fingerprint
in the install script): tag name, compact class token, 1-based sibling index,
trimmed inner text (at most 200 chars) and bounding box. -/
structure Fingerprint where
  tag : String
  cls : String
  idx : Nat
  txt : String
  bbox : BBox
deriving DecidableEq, Repr

/-- Kind of a captured interaction event (the two capturing-phase listeners
registered by the install script). -/
inductive EventKind where
  | pointerover
  | mouseenter
deriving DecidableEq, Repr

/-- One entry of the page-scoped hover log (window.__hover_events).  The
listener stores a fingerprint, or null when the event target is not an
element node, which we model with Option. -/
structure HoverEvent where
  kind : EventKind
  time : Nat
  target : Option Fingerprint
deriving DecidableEq, Repr

/-- A node judged revealed near a discovery trigger, as produced by the
query script inside aggregation: tag, visible text (at most 300 chars),
optional hyperlink target, optional serialized fragment, box. -/
structure RevealedNode where
  tag : String
  text : String
  href : Option String
  outer : Option String
  bbox : BBox
deriving DecidableEq, Repr

/-- One ranked discovery produced by the aggregator: composite fingerprint
key, occurrence count, latest sample fingerprint, revealed nodes. -/
structure Discovery where
  fingerprint_key : String
  count : Nat
  sample : Fingerprint
  revealed : List RevealedNode
deriving DecidableEq, Repr

/-- An action control captured inside a DOM overlay or role dialog: label
text and optional hyperlink. -/
structure PopupButton where
  text : String
  href : Option String
deriving DecidableEq, Repr

/-- Record of a native browser dialog captured by the on_dialog handler:
dialog type, message and optional default value. -/
structure DialogInfo where
  dtype : String
  message : String
  defaultValue : Option String
deriving DecidableEq, Repr

/-- A popup candidate, mirroring the three shapes of dictionary appended by
_detect_popups: a native browser dialog entry carries only the dialog record
(no title key and no buttons key); a DOM entry (role_dialog or overlay)
carries a title, a button list and a serialized fragment; a popup_window
entry carries only a count. -/
inductive PopupDiscovery where
  | browserDialog (message : DialogInfo)
  | domOverlay (ptype : String) (title : String) (buttons : List PopupButton)
      (outer : Option String)
  | popupWindow (count : Nat)
deriving DecidableEq, Repr

/-- Entry recorded by the click verifier: href, status string and, on
success, the resulting page URL. -/
structure VerifyEntry where
  href : String
  status : String
  url : Option String
deriving DecidableEq, Repr

/-- The dictionary returned by run: url, discoveries, popup candidates,
non-fatal error notes, optional click-verification entries and the
synthesized feature text.  The two optional fields model dictionary keys
that are absent on some paths (click_verification is only set when
verification ran to completion; generated_feature is never set on the
early navigation-failure return). -/
structure ExplorationResult where
  url : String
  hover_discoveries : List Discovery
  popup_discoveries : List PopupDiscovery
  errors : List String
  click_verification : Option (List VerifyEntry)
  generated_feature : Option String
deriving DecidableEq, Repr

/-! Python truthiness helpers used by the generator: an empty string and a
missing value are falsy; the expression a or b yields b when a is falsy. -/

/-- Python expression a or b on strings (empty string is falsy). -/
def pyOr (a b : String) : String := if a = "" then b else a

/-- Formatting of an optional string in an f-string (None prints as None). -/
def pyStr : Option String → String
  | some s => s
  | none => "None"

/-- Truthiness of an optional href (None and the empty string are falsy). -/
def hrefTruthy : Option String → Bool
  | some s => s != ""
  | none => false

/-- Python str.startswith: a character-level prefix test. -/
def pyStartsWith (s p : String) : Bool := p.data.isPrefixOf s.data

/-- Value of candidate.get with key title: only DOM entries carry the key. -/
def titleOf : PopupDiscovery → Option String
  | .domOverlay _ t _ _ => some t
  | _ => none

/-- Value of candidate.get with key buttons, with a missing key and an
explicit or-empty fallback both collapsing to the empty list. -/
def buttonsOf : PopupDiscovery → List PopupButton
  | .domOverlay _ _ bs _ => bs
  | _ => []

/-- Truthiness of p.get with key title (None and the empty string falsy). -/
def titleTruthy (p : PopupDiscovery) : Bool :=
  match titleOf p with
  | some t => t != ""
  | none => false

/-- Selection predicate of the popup scenario (line 479 of the source):
p.get title or (p.get buttons and len greater than zero). -/
def isCandidate (p : PopupDiscovery) : Bool :=
  titleTruthy p || !(buttonsOf p).isEmpty

/-- Title used in the popup scenario: candidate.get title or the literal
default Popup/Overlay. -/
def pyTitleOrDefault (p : PopupDiscovery) : String :=
  match titleOf p with
  | some t => pyOr t "Popup/Overlay"
  | none => "Popup/Overlay"

/-- Cancel label of the popup scenario (line 485): the text of the first
captured button, or the literal default Cancel when none was captured. -/
def cancelLabelOf (buttons : List PopupButton) : String :=
  match buttons with
  | [] => "Cancel"
  | b :: _ => b.text

/-- Continue label of the popup scenario (line 486): the text of the second
captured button, or the literal default Continue when fewer than two
buttons exist. -/
def continueLabelOf (buttons : List PopupButton) : String :=
  match buttons with
  | _ :: b2 :: _ => b2.text
  | _ => "Continue"

/-- The popup scenario block (lines 483 to 502 of the source), emitted once
a candidate has been selected. -/
def popupBlock (url : String) (c : PopupDiscovery) : List String :=
  let title := pyTitleOrDefault c
  let buttons := buttonsOf c
  ["Scenario: Validate popup/overlay behavior - \"" ++ title ++ "\"",
   "  Given the user is on \"" ++ url ++ "\"",
   "  When the user triggers the action that opens the popup",
   "  Then a pop-up/overlay should appear with title \"" ++ title ++ "\""]
  ++ (if buttons.isEmpty then
        ["  # No actionable buttons detected in popup; manual verification required"]
      else
        ["  And the pop-up should contain buttons \"" ++
           String.intercalate "\", \"" ((buttons.take 2).map (fun b => b.text)) ++ "\"",
         "  When the user clicks the \"" ++ cancelLabelOf buttons ++ "\" button",
         "  Then the pop-up should close and the user should remain on the same page",
         "  When the user triggers the popup again and clicks the \"" ++
           continueLabelOf buttons ++ "\" button",
         "  Then the page should navigate to the target link (if any)"])
  ++ [""]

/-- Lines contributed by the popup branch of _generate_gherkin: the first
candidate in detection order with a truthy title or a nonempty button list
is rendered; with no such candidate (in particular with an empty list)
nothing is emitted. -/
def popupLines (url : String) (pops : List PopupDiscovery) : List String :=
  match pops.find? isCandidate with
  | some c => popupBlock url c
  | none => []

/-- The hover scenario block (lines 506 to 526 of the source), built from
the top-ranked discovery. -/
def hoverBlock (url : String) (top : Discovery) : List String :=
  let triggerTxt := (pyOr top.sample.txt top.sample.tag).take 60
  let revealedLinks := top.revealed.filter (fun r => hrefTruthy r.href)
  ["Scenario: Validate hover-based interaction for \"" ++ triggerTxt ++ "\"",
   "  Given the user is on \"" ++ url ++ "\"",
   "  When the user hovers over the UI element that appears like \"" ++ triggerTxt ++ "\""]
  ++ (match revealedLinks with
      | link :: _ =>
          let linkText := pyOr link.text (pyStr link.href)
          ["  Then a dropdown/overlay should appear containing a link \"" ++ linkText ++ "\"",
           "  When the user clicks the link \"" ++ linkText ++ "\"",
           "  Then the page URL should change to \"" ++ pyStr link.href ++ "\""]
      | [] =>
          match top.revealed with
          | r0 :: _ =>
              ["  Then a dropdown/overlay should appear containing text \"" ++
                 pyOr r0.text r0.tag ++ "\""]
          | [] => ["  Then a hover-activated element should become visible (manual check)"])
  ++ [""]

/-- Lines contributed by the hover branch of _generate_gherkin: only the
first (highest ranked) discovery is rendered. -/
def hoverLines (url : String) (hovers : List Discovery) : List String :=
  match hovers with
  | [] => []
  | top :: _ => hoverBlock url top

/-- The feature header and the blank line that always open the output. -/
def headerBlock (url : String) : List String :=
  ["Feature: Validate hover and popup interactions for \"" ++ url ++ "\"", ""]

/-- The manual-check note emitted when both input lists are empty. -/
def manualNote : String :=
  "  # No hover interactions or popups detected automatically. Manual checks required."

/-- Lines contributed by the final branch of _generate_gherkin (line 528):
the note fires only when the raw popup list and the hover list are both
empty, not when the popup list merely contains no usable candidate. -/
def nonePart (pops : List PopupDiscovery) (hovers : List Discovery) : List String :=
  if pops.isEmpty && hovers.isEmpty then [manualNote, ""] else []

/-- All lines of _generate_gherkin, in emission order.  Only the url, the
popup list and the hover list of the result are read. -/
def generateGherkinLines (r : ExplorationResult) : List String :=
  headerBlock r.url ++ popupLines r.url r.popup_discoveries
    ++ hoverLines r.url r.hover_discoveries
    ++ nonePart r.popup_discoveries r.hover_discoveries

/-- The synthesized feature text: the lines joined by newlines. -/
def generateGherkin (r : ExplorationResult) : String :=
  String.intercalate "\n" (generateGherkinLines r)

/-! Discovery aggregation (_aggregate_events).  The live-DOM overlap query
run per top target is modelled by an oracle from the sample bounding box to
the list of nodes the query script returned (a failing query is the oracle
returning the empty list, matching the except branch). -/

/-- Composite grouping key of an event target (line 314 of the source):
tag, class token, sibling index, box x, box y and the first 40 characters
of the text, joined by vertical bars. -/
def eventKey (t : Fingerprint) : String :=
  t.tag ++ "|" ++ t.cls ++ "|" ++ toString t.idx ++ "|" ++ toString t.bbox.x ++ "|"
    ++ toString t.bbox.y ++ "|" ++ t.txt.take 40

/-- Counter update: bump the count of a key, keeping first-occurrence order
and appending a fresh key at the end (dictionary insertion order). -/
def bumpKey : List (String × Nat) → String → List (String × Nat)
  | [], k => [(k, 1)]
  | (k0, n) :: rest, k =>
      if k0 = k then (k0, n + 1) :: rest else (k0, n) :: bumpKey rest k

/-- Counter built over the event log: one entry per distinct key of an
event with a non-null target, in first-occurrence order. -/
def countKeys (events : List HoverEvent) : List (String × Nat) :=
  events.foldl (fun acc ev =>
    match ev.target with
    | none => acc
    | some t => bumpKey acc (eventKey t)) []

/-- Descending preorder on counter entries used by most_common: entry a may
precede entry b when the count of a is at least the count of b. -/
def countGE (a b : String × Nat) : Prop := b.2 ≤ a.2

instance : DecidableRel countGE := fun a b => inferInstanceAs (Decidable (b.2 ≤ a.2))

instance : IsTotal (String × Nat) countGE := ⟨fun a b => le_total b.2 a.2⟩

instance : IsTrans (String × Nat) countGE := ⟨fun _ _ _ hab hbc => le_trans hbc hab⟩

/-- Counter.most_common with argument 12: the counter entries sorted by
count descending, truncated to twelve.  Python performs a stable descending
sort here, and insertionSort with a reflexive total preorder computes
exactly the stable sort for that preorder. -/
def mostCommon12 (events : List HoverEvent) : List (String × Nat) :=
  (List.insertionSort countGE (countKeys events)).take 12

/-- Default fingerprint used only to totalize the sample lookup; every key
processed by the aggregator stems from at least one logged event, so the
default is never produced on reachable inputs. -/
def defaultFingerprint : Fingerprint := ⟨"", "", 0, "", ⟨0, 0, 0, 0⟩⟩

/-- Latest stored sample for a key: target_samples accumulates, per key,
the fingerprints of the matching events in log order, and the aggregator
uses the last one. -/
def sampleFor (events : List HoverEvent) (k : String) : Fingerprint :=
  (((events.filterMap (fun ev => ev.target)).filter
      (fun t => eventKey t == k)).getLast?).getD defaultFingerprint

/-- Filter applied to the nodes returned by the overlap query (line 364):
a node is kept unless its text and its href are both falsy. -/
def revealKeep (r : RevealedNode) : Bool := (r.text != "") || hrefTruthy r.href

/-- Descending lexicographic preorder on discoveries used by the final sort
(line 377): key is the pair of occurrence count and number of revealed
nodes, compared in reverse. -/
def discGE (a b : Discovery) : Prop :=
  b.count < a.count ∨ (a.count = b.count ∧ b.revealed.length ≤ a.revealed.length)

instance : DecidableRel discGE := fun a b =>
  inferInstanceAs (Decidable (b.count < a.count ∨
    (a.count = b.count ∧ b.revealed.length ≤ a.revealed.length)))

instance : IsTotal Discovery discGE := by
  constructor
  intro a b
  rcases lt_trichotomy b.count a.count with h | h | h
  · exact Or.inl (Or.inl h)
  · rcases le_total b.revealed.length a.revealed.length with h2 | h2
    · exact Or.inl (Or.inr ⟨h.symm, h2⟩)
    · exact Or.inr (Or.inr ⟨h, h2⟩)
  · exact Or.inr (Or.inl h)

instance : IsTrans Discovery discGE := by
  constructor
  intro a b c hab hbc
  rcases hab with h1 | ⟨h1, h1l⟩
  · rcases hbc with h2 | ⟨h2, _⟩
    · exact Or.inl (lt_trans h2 h1)
    · exact Or.inl (h2 ▸ h1)
  · rcases hbc with h2 | ⟨h2, h2l⟩
    · exact Or.inl (h1 ▸ h2)
    · exact Or.inr ⟨h1.trans h2, le_trans h2l h1l⟩

/-- The discovery aggregator: group events by fingerprint key, keep the
twelve most frequent groups, attach to each the filtered and truncated
result of the overlap query around the latest sample box, and sort by
(count, number of revealed nodes) descending with a stable sort. -/
def aggregateEvents (events : List HoverEvent) (reveal : BBox → List RevealedNode) :
    List Discovery :=
  let top := mostCommon12 events
  let discoveries := top.map (fun kc =>
    let sample := sampleFor events kc.1
    { fingerprint_key := kc.1, count := kc.2, sample := sample,
      revealed := ((reveal sample.bbox).filter revealKeep).take 12 : Discovery })
  List.insertionSort discGE discoveries

/-! Popup detection (_detect_popups).  The DOM overlay scan is an oracle:
none models the query raising (silently ignored), some os its result. -/

/-- One entry returned by the overlay scan script: entry type (role_dialog
or overlay), title text, captured buttons, serialized fragment. -/
structure OverlayRec where
  ptype : String
  title : String
  buttons : List PopupButton
  outer : Option String
deriving DecidableEq, Repr

/-- The popup detector: native dialog records first, then the DOM overlay
scan results, then a single count entry when secondary pages were opened. -/
def detectPopups (dialogs : List DialogInfo) (overlayScan : Option (List OverlayRec))
    (popupPagesCount : Nat) : List PopupDiscovery :=
  (dialogs.map (fun d => PopupDiscovery.browserDialog d))
    ++ (match overlayScan with
        | some os => os.map (fun o => PopupDiscovery.domOverlay o.ptype o.title o.buttons o.outer)
        | none => [])
    ++ (if popupPagesCount > 0 then [PopupDiscovery.popupWindow popupPagesCount] else [])

/-! Grid size of the exploration driver (_explore_page, line 224). -/

/-- Row count of the grid sweep as the code computes it:
max(3, min(6, int(sqrt(T) times 2))), where int truncates.  For a
whole-second budget T, truncating 2 times the square root of T yields
Nat.sqrt (4 * T), since 2 sqrt T = sqrt (4 T). -/
def gridRows (T : Nat) : Nat := max 3 (min 6 (Nat.sqrt (4 * T)))

/-- Row-count formula as the specification words it, with rounding instead
of truncation: clamp(round(sqrt(T) times 2), 3, 6).  For natural T the
nearest integer to 2 sqrt T equals (Nat.sqrt (16 * T) + 1) / 2. -/
def specGridRows (T : Nat) : Nat := max 3 (min 6 ((Nat.sqrt (16 * T) + 1) / 2))

/-! Page instrumentation state (_install_instrumentation).  Each evaluation
of the install script creates fresh listener closures and a fresh mutation
observer; the DOM dispatches an event to every registered listener, and the
guards at the top of the script only protect the two log arrays. -/

/-- Page-scoped state touched by the install script: existence and content
of the hover log, existence of the mutation log, and the number of
registered pointerover listeners, mouseenter listeners and observers. -/
structure PageState where
  hoverLogExists : Bool
  hoverEvents : List HoverEvent
  mutationLogExists : Bool
  pointeroverListeners : Nat
  mouseenterListeners : Nat
  mutationObservers : Nat
deriving DecidableEq, Repr

/-- A freshly loaded page: no logs, no listeners, no observers. -/
def freshPage : PageState :=
  { hoverLogExists := false, hoverEvents := [], mutationLogExists := false,
    pointeroverListeners := 0, mouseenterListeners := 0, mutationObservers := 0 }

/-- Effect of evaluating the install script once: the two guarded blocks
create the log arrays only when absent (preserving prior contents), while
the immediately-invoked tail unconditionally registers one more pointerover
listener, one more mouseenter listener and one more mutation observer. -/
def installInstrumentation (s : PageState) : PageState :=
  { hoverLogExists := true
    hoverEvents := if s.hoverLogExists then s.hoverEvents else []
    mutationLogExists := true
    pointeroverListeners := s.pointeroverListeners + 1
    mouseenterListeners := s.mouseenterListeners + 1
    mutationObservers := s.mutationObservers + 1 }

/-- Dispatch of one pointerover event over an element with fingerprint fp:
every registered capturing pointerover listener runs once and appends one
log entry. -/
def firePointerover (s : PageState) (t : Nat) (fp : Option Fingerprint) : PageState :=
  { s with hoverEvents :=
      s.hoverEvents ++ List.replicate s.pointeroverListeners ⟨.pointerover, t, fp⟩ }

/-- Dispatch of one mouseenter event: every registered capturing mouseenter
listener runs once and appends one log entry. -/
def fireMouseenter (s : PageState) (t : Nat) (fp : Option Fingerprint) : PageState :=
  { s with hoverEvents :=
      s.hoverEvents ++ List.replicate s.mouseenterListeners ⟨.mouseenter, t, fp⟩ }

/-! Click verification (_safe_click_verify).  Navigation of the isolated
context is an oracle from href to either the reached URL or the raised
error text (a failure of new_page itself folds into the same error case). -/

/-- Eligibility of a revealed node for verification: its href must be
truthy and must not be a script pseudo-link or a fragment-only link. -/
def eligibleHref (r : RevealedNode) : Option String :=
  match r.href with
  | none => none
  | some s =>
      if s = "" then none
      else if pyStartsWith s "javascript:" || pyStartsWith s "#" then none
      else some s

/-- The hrefs the verifier attempts, in traversal order: discoveries in
list order, revealed nodes in list order, ineligible nodes skipped. -/
def eligibleHrefs (ds : List Discovery) : List String :=
  (ds.map (fun d => d.revealed.filterMap eligibleHref)).flatten

/-- Entry recorded for one attempted href: on success status opened with
the reached URL, on an exception an error status embedding the message. -/
def verifyOne (nav : String → Except String String) (href : String) : VerifyEntry :=
  match nav href with
  | .ok u => { href := href, status := "opened", url := some u }
  | .error e => { href := href, status := "error: " ++ e, url := none }

/-- The entries accumulated by the verifier: one per attempted href, in
order; an exception for one href is caught inside the loop body, so later
hrefs are still attempted. -/
def safeClickVerify (nav : String → Except String String) (ds : List Discovery) :
    List VerifyEntry :=
  (eligibleHrefs ds).map (verifyOne nav)

/-- Browser-level operations, tagged with the identifier of the browsing
context they act on. -/
inductive BrowserOp where
  | newContext (cid : Nat)
  | newPage (cid : Nat)
  | gotoOp (cid : Nat) (href : String)
  | closePage (cid : Nat)
  | closeContext (cid : Nat)
deriving DecidableEq, Repr

/-- Operations performed for one attempted href inside the fresh context c:
a new page and a navigation, plus a page close when navigation succeeded
(on an exception the per-link page is not closed). -/
def verifyOpsFor (c : Nat) (nav : String → Except String String) (href : String) :
    List BrowserOp :=
  match nav href with
  | .ok _ => [BrowserOp.newPage c, BrowserOp.gotoOp c href, BrowserOp.closePage c]
  | .error _ => [BrowserOp.newPage c, BrowserOp.gotoOp c href]

/-- Trace of browser operations performed by the verifier when the
exploration context has identifier mainCid: browser.new_context allocates a
fresh context (modelled as mainCid + 1), one initial page is opened in it,
every attempted href gets a new page and a navigation in that fresh context
(the page is closed again only on success), and the initial page and the
fresh context are closed at the end. -/
def verifyOps (mainCid : Nat) (nav : String → Except String String)
    (ds : List Discovery) : List BrowserOp :=
  let c := mainCid + 1
  [BrowserOp.newContext c, BrowserOp.newPage c]
  ++ ((eligibleHrefs ds).map (verifyOpsFor c nav)).flatten
  ++ [BrowserOp.closePage c, BrowserOp.closeContext c]

/-! The run entry point.  Branches taken by the browser are oracles in a
run environment; the run function records how often the exploration context
and the browser are explicitly closed, and whether run returns a result or
lets an exception escape. -/

/-- Environment of one run: outcome of the initial navigation, outcome of
evaluating the install script, optional exploration-phase exception text,
result of reading back the hover log (none when the evaluate call raises),
the overlap-query oracle, the captured native dialogs, the overlay-scan
outcome, the number of secondary pages, an optional exception text for the
verification phase, and the navigation oracle of the isolated context. -/
structure RunEnv where
  navOk : Bool
  navErr : String
  installOk : Bool
  installErr : String
  exploreErr : Option String
  eventsEval : Option (List HoverEvent)
  reveal : BBox → List RevealedNode
  dialogs : List DialogInfo
  overlayScan : Option (List OverlayRec)
  popupPagesCount : Nat
  verifyCrash : Option String
  nav : String → Except String String

/-- Outcome of one run: either a returned result or an escaped exception,
together with the number of explicit close calls on the exploration context
and on the browser that happened before control left run. -/
structure RunResult where
  outcome : Except String ExplorationResult
  contextCloses : Nat
  browserCloses : Nat

/-- The run entry point.  On navigation failure the error is recorded and
context and browser are closed before the early return.  The call that
evaluates the install script is not wrapped in any try block, so its
failure escapes run before any close call.  After that, every phase is
wrapped: exploration failures and verification failures become error notes,
failed log reads yield empty logs, and the synthesized feature text is
attached before the final close calls and return. -/
def run (clickVerify : Bool) (env : RunEnv) (url : String) : RunResult :=
  if env.navOk = false then
    { outcome := Except.ok
        { url := url, hover_discoveries := [], popup_discoveries := [],
          errors := ["Navigation error: " ++ env.navErr],
          click_verification := none, generated_feature := none },
      contextCloses := 1, browserCloses := 1 }
  else if env.installOk = false then
    { outcome := Except.error ("Instrumentation install raised: " ++ env.installErr),
      contextCloses := 0, browserCloses := 0 }
  else
    let exploreErrors := match env.exploreErr with
      | some e => ["Exploration error: " ++ e]
      | none => []
    let events := env.eventsEval.getD []
    let discoveries := aggregateEvents events env.reveal
    let popups := detectPopups env.dialogs env.overlayScan env.popupPagesCount
    let verif : Option (List VerifyEntry) × List String :=
      if clickVerify then
        match env.verifyCrash with
        | some e => (none, ["Click verify error: " ++ e])
        | none => (some (safeClickVerify env.nav discoveries), [])
      else (none, [])
    let r1 : ExplorationResult :=
      { url := url, hover_discoveries := discoveries, popup_discoveries := popups,
        errors := exploreErrors ++ verif.2, click_verification := verif.1,
        generated_feature := none }
    { outcome := Except.ok { r1 with generated_feature := some (generateGherkin r1) },
      contextCloses := 1, browserCloses := 1 }

/-! Concrete inputs used to instantiate the theorems below. -/

/-- Sample fingerprint of a first reactive element. -/
def fpA : Fingerprint := ⟨"a", "menu", 1, "alpha", ⟨0, 0, 10, 10⟩⟩

/-- Sample fingerprint of a second reactive element. -/
def fpB : Fingerprint := ⟨"b", "card", 1, "beta", ⟨50, 0, 10, 10⟩⟩

/-- Event log with ten hits on the first element and three on the second. -/
def witnessEvents : List HoverEvent :=
  List.replicate 10 ⟨.pointerover, 0, some fpA⟩
    ++ List.replicate 3 ⟨.pointerover, 1, some fpB⟩

/-- A result with empty discovery and popup lists. -/
def rA : ExplorationResult := ⟨"u", [], [], [], none, none⟩

/-- A result agreeing with rA on url, discoveries and popups but differing
on the error list, the verification entries and the stored feature text. -/
def rB : ExplorationResult :=
  ⟨"u", [], [], ["Exploration error: x"], some [], some "stale"⟩

/-- A result whose popup list holds a single native-dialog entry and whose
hover list is empty. -/
def rHeaderOnly : ExplorationResult :=
  ⟨"u", [], [.browserDialog ⟨"alert", "m", none⟩], [], none, none⟩

/-- A result whose popup list holds only native-dialog entries. -/
def rDialogsOnly : ExplorationResult :=
  ⟨"u", [],
   [.browserDialog ⟨"confirm", "leave?", some ""⟩, .browserDialog ⟨"alert", "hi", none⟩],
   [], none, none⟩

/-- Popup list with an unusable native-dialog entry followed by a usable
overlay entry. -/
def popsW : List PopupDiscovery :=
  [.browserDialog ⟨"alert", "m", none⟩,
   .domOverlay "overlay" "Subscribe" [⟨"No thanks", none⟩] none]

/-- Run environment in which navigation succeeds and evaluating the install
script raises. -/
def envInstallFail : RunEnv :=
  { navOk := true, navErr := "", installOk := false, installErr := "boom",
    exploreErr := none, eventsEval := some [], reveal := fun _ => [],
    dialogs := [], overlayScan := some [], popupPagesCount := 0,
    verifyCrash := none, nav := fun _ => Except.error "unreachable" }

/-- Run environment of a fully successful run that captured one native
dialog and nothing else. -/
def envHeaderOnly : RunEnv :=
  { navOk := true, navErr := "", installOk := true, installErr := "",
    exploreErr := none, eventsEval := some [], reveal := fun _ => [],
    dialogs := [⟨"alert", "m", none⟩], overlayScan := some [], popupPagesCount := 0,
    verifyCrash := none, nav := fun _ => Except.error "unreachable" }

/-- Navigation oracle of the isolated context: one link navigates, every
other link times out. -/
def navW : String → Except String String := fun s =>
  if s = "http://a" then Except.ok "http://a/landed" else Except.error "timeout"

/-- Discovery list whose revealed nodes carry a fragment-only link, a
script pseudo-link and two ordinary links. -/
def dsW : List Discovery :=
  [{ fingerprint_key := "k", count := 2, sample := defaultFingerprint,
     revealed :=
       [⟨"a", "frag", some "#sec", none, ⟨0, 0, 10, 10⟩⟩,
        ⟨"a", "js", some "javascript:void(0)", none, ⟨0, 0, 10, 10⟩⟩,
        ⟨"a", "A", some "http://a", none, ⟨0, 0, 10, 10⟩⟩,
        ⟨"a", "B", some "http://b", none, ⟨0, 0, 10, 10⟩⟩] }]

/-! Helper lemmas shared by several theorems below. -/

/-- Characterization of find? through indices: if position i satisfies the
predicate and every earlier position fails it, find? returns element i. -/
theorem find?_first {α : Type} (p : α → Bool) :
    ∀ (l : List α) (i : Nat) (hi : i < l.length),
      p (l.get ⟨i, hi⟩) = true →
      (∀ j (hj : j < l.length), j < i → p (l.get ⟨j, hj⟩) = false) →
      l.find? p = some (l.get ⟨i, hi⟩) := by
  intro l
  induction l with
  | nil => intro i hi; simp at hi
  | cons a l ih =>
      intro i hi hp hmin
      cases i with
      | zero =>
          simp only [List.get] at hp
          simp [List.find?_cons, hp]
      | succ n =>
          have ha : p a = false := by
            have := hmin 0 (by simp) (by omega)
            simpa using this
          have hrec := ih n (by simpa using hi) (by simpa using hp)
            (fun j hj hji => by
              have := hmin (j + 1) (by simpa using hj) (by omega)
              simpa using this)
          simp [List.find?_cons, ha]
          simpa using hrec

/-- The popup block always starts with its scenario line, hence is never
the empty list. -/
theorem popupBlock_ne_nil (url : String) (c : PopupDiscovery) :
    popupBlock url c ≠ [] := by
  unfold popupBlock
  simp

/-- The hover block always starts with its scenario line, hence is never
the empty list. -/
theorem hoverBlock_ne_nil (url : String) (top : Discovery) :
    hoverBlock url top ≠ [] := by
  unfold hoverBlock
  simp

end DynamicExplorer

namespace DynamicExplorer

/-- C2: evaluating the install script a second time is not a no-op.  The
guards only protect the two log arrays; the listener registrations and the
observer construction run unconditionally, so after two installs a single
pointerover (or mouseenter) dispatch appends two log entries instead of
one, and two mutation observers are active instead of one.  After a single
install the counts are one, as the claim expects of every install. -/
theorem double_install_duplicates_capture :
    ((firePointerover (installInstrumentation (installInstrumentation freshPage)) 5
        (some defaultFingerprint)).hoverEvents).length = 2 ∧
    ((fireMouseenter (installInstrumentation (installInstrumentation freshPage)) 5
        (some defaultFingerprint)).hoverEvents).length = 2 ∧
    (installInstrumentation (installInstrumentation freshPage)).mutationObservers = 2 ∧
    ((firePointerover (installInstrumentation freshPage) 5
        (some defaultFingerprint)).hoverEvents).length = 1 ∧
    (installInstrumentation freshPage).mutationObservers = 1 := by
  refine ⟨rfl, rfl, rfl, rfl, rfl⟩

/-- C9: the synthesizer output depends only on the url, the hover list and
the popup list of the result record; two results agreeing on those three
fields yield identical scenario text, whatever their error list,
verification entries or previously stored feature text. -/
theorem generate_gherkin_deterministic :
    ∀ r1 r2 : ExplorationResult,
      r1.url = r2.url →
      r1.hover_discoveries = r2.hover_discoveries →
      r1.popup_discoveries = r2.popup_discoveries →
      generateGherkin r1 = generateGherkin r2 := by
  intro r1 r2 h1 h2 h3
  unfold generateGherkin generateGherkinLines
  rw [h1, h2, h3]

/-- Witness for C9 at two concrete results differing in the unread fields. -/
theorem generate_gherkin_deterministic_witness :
    generateGherkin rA = generateGherkin rB :=
  generate_gherkin_deterministic rA rB rfl rfl rfl

/-- C10: a native browser-dialog popup entry carries no title key and no
buttons key, so it never satisfies the candidate predicate; when every
popup entry is a native dialog, the popup branch contributes nothing and
the output consists of the header, the hover block and the final branch
only. -/
theorem browser_dialog_never_selected :
    ∀ r : ExplorationResult,
      (∀ d : DialogInfo, titleOf (PopupDiscovery.browserDialog d) = none ∧
          buttonsOf (PopupDiscovery.browserDialog d) = [] ∧
          isCandidate (PopupDiscovery.browserDialog d) = false) ∧
      ((∀ p ∈ r.popup_discoveries, ∃ d, p = PopupDiscovery.browserDialog d) →
        popupLines r.url r.popup_discoveries = [] ∧
        generateGherkinLines r =
          headerBlock r.url ++ hoverLines r.url r.hover_discoveries
            ++ nonePart r.popup_discoveries r.hover_discoveries) := by
  intro r
  refine ⟨fun d => ⟨rfl, rfl, rfl⟩, fun h => ?_⟩
  have hfind : r.popup_discoveries.find? isCandidate = none := by
    rw [List.find?_eq_none]
    intro p hp
    obtain ⟨d, rfl⟩ := h p hp
    simp [isCandidate, titleTruthy, titleOf, buttonsOf]
  have hpl : popupLines r.url r.popup_discoveries = [] := by
    unfold popupLines
    rw [hfind]
  refine ⟨hpl, ?_⟩
  unfold generateGherkinLines
  rw [hpl]
  simp

/-- Witness for C10 at a popup list holding two native-dialog entries. -/
theorem browser_dialog_never_selected_witness :
    popupLines rDialogsOnly.url rDialogsOnly.popup_discoveries = [] := by
  refine ((browser_dialog_never_selected rDialogsOnly).2 ?_).1
  intro p hp
  have hp2 : p = PopupDiscovery.browserDialog ⟨"confirm", "leave?", some ""⟩ ∨
      p = PopupDiscovery.browserDialog ⟨"alert", "hi", none⟩ := by
    simpa [rDialogsOnly] using hp
  rcases hp2 with rfl | rfl
  · exact ⟨_, rfl⟩
  · exact ⟨_, rfl⟩

/-- C1, counterexample: on a result whose popup list holds one native
dialog (no title, no buttons) and whose hover list is empty, the generated
output is the feature header and a blank line only: no popup scenario, no
hover scenario, and no manual-verification note.  The run entry point
produces exactly this output on a successful run that captured one native
dialog and nothing else. -/
theorem gherkin_header_only_counterexample :
    generateGherkinLines rHeaderOnly =
      ["Feature: Validate hover and popup interactions for \"u\"", ""] ∧
    popupLines rHeaderOnly.url rHeaderOnly.popup_discoveries = [] ∧
    hoverLines rHeaderOnly.url rHeaderOnly.hover_discoveries = [] ∧
    manualNote ∉ generateGherkinLines rHeaderOnly ∧
    (run false envHeaderOnly "u").outcome = Except.ok
      { url := "u", hover_discoveries := [],
        popup_discoveries := [.browserDialog ⟨"alert", "m", none⟩], errors := [],
        click_verification := none,
        generated_feature :=
          some "Feature: Validate hover and popup interactions for \"u\"\n" } := by
  refine ⟨by decide, by decide, by decide, by decide, rfl⟩

/-- C1, amended: when the popup and hover lists are both empty the output
is exactly the header plus a single manual-verification note and no
scenario bodies; in every other case the output contains a popup scenario,
a hover scenario or the note, except in the one uncovered case where the
popup list is nonempty, none of its entries is a usable candidate and no
hover discovery exists (then only the header is emitted). -/
theorem gherkin_output_shape :
    ∀ r : ExplorationResult,
      (r.popup_discoveries = [] → r.hover_discoveries = [] →
        generateGherkinLines r =
          ["Feature: Validate hover and popup interactions for \"" ++ r.url ++ "\"", "",
           manualNote, ""]) ∧
      (popupLines r.url r.popup_discoveries ≠ [] ∨
       hoverLines r.url r.hover_discoveries ≠ [] ∨
       manualNote ∈ generateGherkinLines r ∨
       (r.popup_discoveries ≠ [] ∧ (∀ p ∈ r.popup_discoveries, isCandidate p = false) ∧
         r.hover_discoveries = [])) := by
  intro r
  constructor
  · intro h1 h2
    unfold generateGherkinLines
    rw [h1, h2]
    simp [headerBlock, popupLines, hoverLines, nonePart]
  · cases hh : r.hover_discoveries with
    | cons top rest =>
        exact Or.inr (Or.inl (by simpa [hoverLines] using hoverBlock_ne_nil r.url top))
    | nil =>
        cases hf : r.popup_discoveries.find? isCandidate with
        | some c =>
            refine Or.inl ?_
            unfold popupLines
            rw [hf]
            exact popupBlock_ne_nil r.url c
        | none =>
            cases hp : r.popup_discoveries with
            | nil =>
                refine Or.inr (Or.inr (Or.inl ?_))
                unfold generateGherkinLines
                rw [hp, hh]
                simp [headerBlock, popupLines, hoverLines, nonePart]
            | cons q qs =>
                rw [hp] at hf
                refine Or.inr (Or.inr (Or.inr ⟨by simp, ?_, rfl⟩))
                intro p hpmem
                have := List.find?_eq_none.mp hf p hpmem
                simpa using this

/-- Witness for C1 at a result with empty popup and hover lists. -/
theorem gherkin_output_shape_witness :
    generateGherkinLines rA =
      ["Feature: Validate hover and popup interactions for \"" ++ rA.url ++ "\"", "",
       manualNote, ""] :=
  (gherkin_output_shape rA).1 rfl rfl

/-- C7: the popup branch emits a scenario exactly when some popup entry has
a truthy title or a nonempty button list; the candidate used is the first
such entry in detection order; with buttons present the block names the
first button as the cancel label and the second (or the default Continue)
as the continue label; with no buttons the block omits the cancel and
continue steps and carries the manual-verification note instead. -/
theorem popup_scenario_selection :
    ∀ (url : String) (pops : List PopupDiscovery),
      (popupLines url pops ≠ [] ↔ ∃ p ∈ pops, isCandidate p = true) ∧
      (∀ i (hi : i < pops.length),
        isCandidate (pops.get ⟨i, hi⟩) = true →
        (∀ j (hj : j < pops.length), j < i → isCandidate (pops.get ⟨j, hj⟩) = false) →
        popupLines url pops = popupBlock url (pops.get ⟨i, hi⟩)) ∧
      (∀ (c : PopupDiscovery) (b : PopupButton) (bs : List PopupButton),
        buttonsOf c = b :: bs →
        popupBlock url c =
          ["Scenario: Validate popup/overlay behavior - \"" ++ pyTitleOrDefault c ++ "\"",
           "  Given the user is on \"" ++ url ++ "\"",
           "  When the user triggers the action that opens the popup",
           "  Then a pop-up/overlay should appear with title \"" ++ pyTitleOrDefault c ++ "\"",
           "  And the pop-up should contain buttons \"" ++
             String.intercalate "\", \"" (((b :: bs).take 2).map (fun x => x.text)) ++ "\"",
           "  When the user clicks the \"" ++ b.text ++ "\" button",
           "  Then the pop-up should close and the user should remain on the same page",
           "  When the user triggers the popup again and clicks the \"" ++
             continueLabelOf (b :: bs) ++ "\" button",
           "  Then the page should navigate to the target link (if any)", ""]) ∧
      (∀ (b b2 : PopupButton) (rest : List PopupButton),
        cancelLabelOf (b :: b2 :: rest) = b.text ∧
        continueLabelOf (b :: b2 :: rest) = b2.text) ∧
      (∀ c : PopupDiscovery, buttonsOf c = [] →
        popupBlock url c =
          ["Scenario: Validate popup/overlay behavior - \"" ++ pyTitleOrDefault c ++ "\"",
           "  Given the user is on \"" ++ url ++ "\"",
           "  When the user triggers the action that opens the popup",
           "  Then a pop-up/overlay should appear with title \"" ++ pyTitleOrDefault c ++ "\"",
           "  # No actionable buttons detected in popup; manual verification required",
           ""]) := by
  intro url pops
  refine ⟨?_, ?_, ?_, fun b b2 rest => ⟨rfl, rfl⟩, ?_⟩
  · constructor
    · intro hne
      cases hf : pops.find? isCandidate with
      | none =>
          exfalso
          apply hne
          unfold popupLines
          rw [hf]
      | some c =>
          exact ⟨c, List.mem_of_find?_eq_some hf, List.find?_some hf⟩
    · rintro ⟨p, hp, hcand⟩ habs
      cases hf : pops.find? isCandidate with
      | none =>
          have := List.find?_eq_none.mp hf p hp
          exact this hcand
      | some c =>
          have : popupLines url pops = popupBlock url c := by
            unfold popupLines
            rw [hf]
          rw [this] at habs
          exact popupBlock_ne_nil url c habs
  · intro i hi hp hmin
    have := find?_first isCandidate pops i hi hp hmin
    unfold popupLines
    rw [this]
  · intro c b bs hb
    unfold popupBlock
    rw [hb]
    simp [cancelLabelOf]
  · intro c hb
    unfold popupBlock
    rw [hb]
    simp

/-- Witness for C7: on a popup list whose first entry is an unusable native
dialog and whose second entry is a usable overlay, the emitted block is the
one of the second entry. -/
theorem popup_scenario_selection_witness :
    popupLines "u" popsW = popupBlock "u" (popsW.get ⟨1, by decide⟩) := by
  refine (popup_scenario_selection "u" popsW).2.1 1 (by decide) (by decide) ?_
  intro j hj hj1
  have hj0 : j = 0 := by omega
  subst hj0
  rfl

/-- C3, counterexample: when navigation succeeds and the unprotected
install evaluation then raises, the exception escapes run before any close
call, so neither the exploration context nor the browser is closed even
once. -/
theorem run_close_counts_counterexample :
    (run false envInstallFail "http://site.test").outcome =
      Except.error "Instrumentation install raised: boom" ∧
    (run false envInstallFail "http://site.test").contextCloses = 0 ∧
    (run false envInstallFail "http://site.test").browserCloses = 0 ∧
    ¬ (run false envInstallFail "http://site.test").contextCloses = 1 := by
  exact ⟨rfl, rfl, rfl, by decide⟩

/-- C3, amended: whenever run returns a result (success or initial
navigation failure) the exploration context and the browser are each closed
exactly once beforehand; the only way control can leave run by an exception
after the page has loaded is a failing install evaluation, and on that path
neither resource is closed. -/
theorem run_close_counts :
    ∀ (cv : Bool) (env : RunEnv) (url : String),
      (∀ r, (run cv env url).outcome = Except.ok r →
        (run cv env url).contextCloses = 1 ∧ (run cv env url).browserCloses = 1) ∧
      (∀ e, (run cv env url).outcome = Except.error e →
        (run cv env url).contextCloses = 0 ∧ (run cv env url).browserCloses = 0 ∧
          env.navOk = true ∧ env.installOk = false) := by
  intro cv env url
  cases hn : env.navOk with
  | false => simp [run, hn]
  | true =>
      cases hi : env.installOk with
      | false => simp [run, hn, hi]
      | true => simp [run, hn, hi]

/-- Witness for C3 on the escaping-exception path. -/
theorem run_close_counts_witness :
    (run false envInstallFail "w").contextCloses = 0 ∧
    (run false envInstallFail "w").browserCloses = 0 := by
  have h := (run_close_counts false envInstallFail "w").2
    "Instrumentation install raised: boom" rfl
  exact ⟨h.1, h.2.1⟩

/-- C4: a failing evaluation of the install script is not caught anywhere:
run neither records an error note nor returns a result on that path; the
exception escapes (and no close call happens first). -/
theorem install_failure_propagates :
    (run false envInstallFail "http://example.test").outcome =
      Except.error "Instrumentation install raised: boom" ∧
    (run false envInstallFail "http://example.test").contextCloses = 0 ∧
    (run false envInstallFail "http://example.test").browserCloses = 0 := by
  exact ⟨rfl, rfl, rfl⟩

/-- Square roots of natural numbers agree with the natural floor of the
real square root. -/
theorem natSqrt_eq_natFloor_sqrt (m : Nat) : Nat.sqrt m = ⌊Real.sqrt m⌋₊ := by
  symm
  rw [Nat.floor_eq_iff (Real.sqrt_nonneg _)]
  constructor
  · rw [Real.le_sqrt (by positivity) (by positivity)]
    exact_mod_cast Nat.sqrt_le' m
  · have h := Nat.lt_succ_sqrt' m
    have h2 : Real.sqrt m < ((Nat.sqrt m + 1 : Nat) : ℝ) := by
      rw [Real.sqrt_lt' (by positivity)]
      exact_mod_cast h
    simpa using h2

/-- Doubling a square root is the square root of four times the number. -/
theorem two_mul_sqrt_eq (T : Nat) :
    2 * Real.sqrt T = Real.sqrt ((4 * T : Nat) : ℝ) := by
  push_cast
  rw [show ((4 : ℝ) * T) = (2 : ℝ) ^ 2 * T by ring,
    Real.sqrt_mul (by positivity), Real.sqrt_sq (by norm_num)]

/-- The specification-side row-count formula is indeed the clamp of the
nearest integer to twice the square root of the budget. -/
theorem specGridRows_eq_round (T : Nat) :
    (specGridRows T : ℤ) = max 3 (min 6 (round (2 * Real.sqrt T))) := by
  have hnn : (0 : ℝ) ≤ 2 * Real.sqrt T + 1 / 2 := by positivity
  have h16 : Real.sqrt ((16 * T : Nat) : ℝ) = 4 * Real.sqrt T := by
    push_cast
    rw [show ((16 : ℝ) * T) = (4 : ℝ) ^ 2 * T by ring,
      Real.sqrt_mul (by positivity), Real.sqrt_sq (by norm_num)]
  have heq : (2 * Real.sqrt T + 1 / 2 : ℝ) = (Real.sqrt ((16 * T : Nat) : ℝ) + 1) / 2 := by
    rw [h16]
    ring
  have hfl : ⌊(2 * Real.sqrt T + 1 / 2 : ℝ)⌋₊ = (Nat.sqrt (16 * T) + 1) / 2 := by
    rw [heq, show ((2 : ℝ)) = ((2 : Nat) : ℝ) by norm_num, Nat.floor_div_nat,
      Nat.floor_add_one (Real.sqrt_nonneg _), ← natSqrt_eq_natFloor_sqrt]
  have hround : round (2 * Real.sqrt (T : ℝ)) = (((Nat.sqrt (16 * T) + 1) / 2 : ℕ) : ℤ) := by
    rw [round_eq, ← Int.natCast_floor_eq_floor hnn, hfl]
  rw [hround]
  unfold specGridRows
  push_cast [Nat.cast_max, Nat.cast_min]
  rfl

/-- C5, counterexample: the code truncates where the claimed formula
rounds.  At the default budget of six seconds the code computes a five-by-
five grid only per the claim, but actually produces four rows: the nearest
integer to twice the square root of six is five, while the truncation the
code performs yields four. -/
theorem grid_rows_round_counterexample :
    gridRows 6 = 4 ∧ specGridRows 6 = 5 ∧ gridRows 6 ≠ specGridRows 6 ∧
    round (2 * Real.sqrt 6) = 5 := by
  have h4 : gridRows 6 = 4 := by norm_num [gridRows]
  have h5 : specGridRows 6 = 5 := by norm_num [specGridRows]
  refine ⟨h4, h5, by rw [h4, h5]; omega, ?_⟩
  have h1 : (2.25 : ℝ) ≤ Real.sqrt 6 := by
    rw [Real.le_sqrt (by norm_num) (by norm_num)]
    norm_num
  have h2 : Real.sqrt 6 < 2.75 := by
    rw [Real.sqrt_lt' (by norm_num)]
    norm_num
  rw [round_eq, Int.floor_eq_iff]
  constructor
  · push_cast
    nlinarith [h1]
  · push_cast
    nlinarith [h2]

/-- C5, amended: for every whole-second budget T the grid row count is the
clamp to the band from three to six of the truncation (floor, not the
nearest integer) of twice the square root of T; at the default budget of
six seconds this yields four rows. -/
theorem grid_rows_floor_formula :
    ∀ T : Nat,
      gridRows T = max 3 (min 6 ⌊2 * Real.sqrt (T : ℝ)⌋₊) ∧ gridRows 6 = 4 := by
  intro T
  constructor
  · unfold gridRows
    rw [two_mul_sqrt_eq, ← natSqrt_eq_natFloor_sqrt]
  · norm_num [gridRows]

/-- Witness for C5 (amended) at the default budget. -/
theorem grid_rows_floor_formula_witness : gridRows 6 = 4 :=
  (grid_rows_floor_formula 6).2

/-- C6: the aggregator output is pairwise ordered by the descending
preorder on (occurrence count, number of revealed nodes); consequently, for
every event log and every overlap oracle, a discovery with occurrence count
ten sits strictly before a discovery with occurrence count three, wherever
the two clusters appeared in the traversal. -/
theorem aggregate_ranking :
    ∀ (events : List HoverEvent) (reveal : BBox → List RevealedNode),
      (aggregateEvents events reveal).Pairwise discGE ∧
      ∀ i j (hi : i < (aggregateEvents events reveal).length)
        (hj : j < (aggregateEvents events reveal).length),
        ((aggregateEvents events reveal).get ⟨i, hi⟩).count = 10 →
        ((aggregateEvents events reveal).get ⟨j, hj⟩).count = 3 → i < j := by
  intro events reveal
  have hp : (aggregateEvents events reveal).Pairwise discGE := by
    unfold aggregateEvents
    exact List.sorted_insertionSort discGE _
  refine ⟨hp, ?_⟩
  intro i j hi hj h10 h3
  by_contra hij
  push_neg at hij
  rcases Nat.eq_or_lt_of_le hij with heq | hlt
  · have hsame : (aggregateEvents events reveal).get ⟨i, hi⟩ =
        (aggregateEvents events reveal).get ⟨j, hj⟩ := by
      congr 1
      exact Fin.ext heq.symm
    rw [hsame, h3] at h10
    exact absurd h10 (by decide)
  · have hrel := List.pairwise_iff_getElem.mp hp j i hj hi hlt
    rw [List.get_eq_getElem] at h10 h3
    rcases hrel with hcnt | ⟨hcnt, _⟩
    · rw [h10, h3] at hcnt
      omega
    · rw [h10, h3] at hcnt
      omega

/-- Witness for C6 on a log with ten hits on one element and three on
another. -/
theorem aggregate_ranking_witness : (0 : Nat) < 1 :=
  (aggregate_ranking witnessEvents (fun _ => [])).2 0 1 (by decide) (by decide)
    (by decide) (by decide)

/-- C8: the verifier records exactly one entry per revealed hyperlink that
is truthy and neither a script pseudo-link nor a fragment-only link, in
traversal order and independent of navigation outcomes (a failing link
never drops later links); pseudo-links are never attempted; every attempted
navigation happens in the freshly created context, never in the exploration
context; each entry is either a success carrying the reached URL or a
failure carrying the error text. -/
theorem safe_click_verify_spec :
    ∀ (mainCid : Nat) (nav : String → Except String String) (ds : List Discovery),
      ((safeClickVerify nav ds).map (fun e => e.href) = eligibleHrefs ds) ∧
      (∀ s : String, pyStartsWith s "javascript:" = true ∨ pyStartsWith s "#" = true →
        s ∉ eligibleHrefs ds) ∧
      (∀ href ∈ eligibleHrefs ds,
        BrowserOp.gotoOp (mainCid + 1) href ∈ verifyOps mainCid nav ds) ∧
      (∀ cid href, BrowserOp.gotoOp cid href ∈ verifyOps mainCid nav ds →
        cid = mainCid + 1 ∧ cid ≠ mainCid) ∧
      (∀ e ∈ safeClickVerify nav ds,
        (∃ u, nav e.href = Except.ok u ∧ e.status = "opened" ∧ e.url = some u) ∨
        (∃ msg, nav e.href = Except.error msg ∧ e.status = "error: " ++ msg ∧
          e.url = none)) := by
  intro mainCid nav ds
  have hhref : ∀ h, (verifyOne nav h).href = h := by
    intro h
    unfold verifyOne
    cases nav h <;> rfl
  refine ⟨?_, ?_, ?_, ?_, ?_⟩
  · unfold safeClickVerify
    rw [List.map_map]
    have hcomp : ((fun e : VerifyEntry => e.href) ∘ verifyOne nav) = fun h => h := by
      funext h
      exact hhref h
    rw [hcomp, List.map_id']
  · intro s hs hmem
    unfold eligibleHrefs at hmem
    rw [List.mem_flatten] at hmem
    obtain ⟨l, hl, hsl⟩ := hmem
    rw [List.mem_map] at hl
    obtain ⟨d, _, rfl⟩ := hl
    rw [List.mem_filterMap] at hsl
    obtain ⟨rnode, _, hre⟩ := hsl
    unfold eligibleHref at hre
    rcases hrw : rnode.href with _ | t
    · rw [hrw] at hre
      exact Option.noConfusion hre
    · rw [hrw] at hre
      have hre2 : (if t = "" then none
          else if (pyStartsWith t "javascript:" || pyStartsWith t "#") = true then none
          else some t) = some s := hre
      split_ifs at hre2 with h1 h2
      obtain rfl := Option.some.inj hre2
      rcases hs with h | h <;> simp [h] at h2
  · intro href hmem
    have hmid : BrowserOp.gotoOp (mainCid + 1) href ∈
        ((eligibleHrefs ds).map (verifyOpsFor (mainCid + 1) nav)).flatten := by
      rw [List.mem_flatten]
      refine ⟨verifyOpsFor (mainCid + 1) nav href, List.mem_map_of_mem _ hmem, ?_⟩
      unfold verifyOpsFor
      cases nav href <;> simp
    simp only [verifyOps, List.mem_append]
    tauto
  · intro cid href hmem
    simp only [verifyOps, List.mem_append] at hmem
    rcases hmem with (hin | hin) | hin
    · simp at hin
    · rw [List.mem_flatten] at hin
      obtain ⟨l, hl, hgoto⟩ := hin
      rw [List.mem_map] at hl
      obtain ⟨h0, _, rfl⟩ := hl
      unfold verifyOpsFor at hgoto
      rcases hnav : nav h0 with u | e <;> rw [hnav] at hgoto <;> simp at hgoto <;>
        exact ⟨hgoto.1, by omega⟩
    · simp at hin
  · intro e hmem
    unfold safeClickVerify at hmem
    rw [List.mem_map] at hmem
    obtain ⟨h0, _, rfl⟩ := hmem
    cases hnav : nav h0 with
    | error msg =>
        refine Or.inr ⟨msg, ?_, ?_, ?_⟩ <;> simp [verifyOne, hnav]
    | ok u =>
        refine Or.inl ⟨u, ?_, ?_, ?_⟩ <;> simp [verifyOne, hnav]

/-- Witness for C8 on a discovery list with a fragment link, a script link
and two ordinary links, of which one navigates and one times out. -/
theorem safe_click_verify_spec_witness :
    ((safeClickVerify navW dsW).map (fun e => e.href) = ["http://a", "http://b"]) ∧
    "#sec" ∉ eligibleHrefs dsW ∧
    "javascript:void(0)" ∉ eligibleHrefs dsW := by
  refine ⟨?_, ?_, ?_⟩
  · exact ((safe_click_verify_spec 0 navW dsW).1).trans (by decide)
  · exact (safe_click_verify_spec 0 navW dsW).2.1 "#sec" (Or.inr (by decide))
  · exact (safe_click_verify_spec 0 navW dsW).2.1 "javascript:void(0)" (Or.inl (by decide))

end DynamicExplorer
